import Mathlib

/-!
Shallow embedding of `mkvparser::Stream` (libmkvparser/mkvparserstream.cpp):
the pull-based sample cursor over a cluster-structured container.

The collaborators (Segment, Track, Cluster, BlockEntry, Cues) are external
to this repository; they are modelled as an abstract environment `Env` whose
fields are the primitives the Stream code calls.  Pointers are modelled as
`Option` of a pointer type; the distinguished EOS sentinels
(`Segment::m_eos`, `Track::GetEOS()`) are dedicated constructors, so that
pointer-equality tests in the source become decidable equality here.
-/

namespace MkvStream

/-- A `Cluster*` value that is not null: either the segment's EOS sentinel
cluster `&Segment::m_eos`, or a real cluster identified by an id. -/
inductive ClPtr where
  | eos : ClPtr
  | cl : Nat → ClPtr
deriving DecidableEq, Repr

/-- A `const BlockEntry*` value that is not null: either the track's EOS
sentinel `Track::GetEOS()`, or a real block entry identified by an id. -/
inductive BEPtr where
  | eos : BEPtr
  | entry : Nat → BEPtr
deriving DecidableEq, Repr

/-- Outcome of `Track::GetFirst` / `Track::GetNext`: either
`E_BUFFER_NOT_FULL` (underflow, out-parameter not produced) or success with
the located block entry.  (Negative error statuses are asserted away in the
source and are outside the collaborator contract modelled here.) -/
inductive Fetch where
  | underflow : Fetch
  | ok : BEPtr → Fetch
deriving DecidableEq, Repr

/-- The collaborator-owned container world, at one instant: the Segment,
Track, Cues and Cluster/Block primitives that `Stream` calls. -/
structure Env where
  /-- `Segment::GetDuration()` in nanoseconds (asserted nonnegative). -/
  duration : Int
  /-- `Segment::GetCount()`: number of loaded clusters. -/
  count : Nat
  /-- `Segment::Unparsed()`: remaining unparsed payload. -/
  unparsed : Int
  /-- `Segment::GetFirst()`: the first loaded cluster. -/
  first : ClPtr
  /-- `Segment::GetNext(cluster)`. -/
  next : ClPtr → ClPtr
  /-- `Segment::FindCluster(ns)`. -/
  findCluster : Int → ClPtr
  /-- `Segment::Seek(ns, track)`: the fallback structural seek (the track is
  fixed for one `Stream`, so it is not a parameter here). -/
  segSeek : Int → BEPtr
  /-- `Segment::GetCues()` combined with `Cues::Find` + `Cues::GetBlock`:
  `none` when the segment has no cue index, otherwise the lookup that
  returns the cue-resolved block entry when `Find` succeeds. -/
  cues : Option (Int → Option BEPtr)
  /-- `BlockEntry::GetCluster()`. -/
  entryCluster : BEPtr → ClPtr
  /-- `Block::GetTime(cluster)` of the entry's block, in its own cluster:
  the adjusted timestamp in nanoseconds. -/
  blockTime : BEPtr → Int
  /-- `Cluster::GetEntry(track)`: the cluster's block entry for this track,
  possibly null. -/
  getEntry : ClPtr → Option BEPtr
  /-- `Track::GetFirst(pCurr)`. -/
  getFirstBlock : Fetch
  /-- `Track::GetNext(pCurr, pNext)`. -/
  getNextBlock : BEPtr → Fetch

/-- The core-owned session state of one `Stream`: the four data members
mutated by the cursor operations. -/
structure StreamState where
  m_pBase : Option ClPtr
  m_pCurr : Option BEPtr
  m_pStop : Option BEPtr
  m_bDiscontinuity : Bool
deriving DecidableEq, Repr

/-- `Stream::Init()`, also run by the constructor `Stream::Stream(pTrack)`. -/
def Init : StreamState :=
  { m_pBase := none
    m_pCurr := none  -- lazy init this later
    m_pStop := some .eos  -- means play entire stream
    m_bDiscontinuity := true }

/-- `Stream::Seek(tCurr_ns, use_cues)`: returns the updated state paired
with the returned `m_pBase` value (`none` is the null pointer). -/
def Seek (env : Env) (s : StreamState) (tCurr_ns : Int) (use_cues : Bool) :
    StreamState × Option ClPtr :=
  let s1 := { s with m_bDiscontinuity := true }
  if env.count = 0 then
    if env.unparsed ≤ 0 then
      ({ s1 with m_pBase := some .eos, m_pCurr := some .eos }, some .eos)
    else
      ({ s1 with m_pBase := none, m_pCurr := none }, none)  -- lazy init later
  else if tCurr_ns ≤ 0 then
    ({ s1 with m_pBase := none, m_pCurr := none }, none)  -- lazy init later
  else if env.duration ≤ tCurr_ns then
    ({ s1 with m_pBase := some .eos, m_pCurr := some .eos }, some .eos)
  else
    let cueHit : Option BEPtr :=
      if use_cues then
        match env.cues with
        | some find => find tCurr_ns
        | none => none
      else none
    match cueHit with
    | some be =>
        ({ s1 with m_pCurr := some be, m_pBase := some (env.entryCluster be) },
         some (env.entryCluster be))
    | none =>
        let be := env.segSeek tCurr_ns
        ({ s1 with m_pCurr := some be, m_pBase := some (env.entryCluster be) },
         some (env.entryCluster be))

/-- `Stream::SetCurrPosition(pBase)`. -/
def SetCurrPosition (env : Env) (s : StreamState) (pBase : Option ClPtr) :
    StreamState :=
  match pBase with
  | none => { s with m_pCurr := none, m_pBase := none, m_bDiscontinuity := true }
  | some b =>
      { s with m_pCurr := env.getEntry b, m_pBase := some b
               m_bDiscontinuity := true }

/-- The seek positioning mode (`AM_SEEKING_*Positioning` after masking;
`NoPositioning` is handled by the caller and the remaining values assert). -/
inductive PosMode where
  | absolute
  | relative
  | incremental
deriving DecidableEq, Repr

/-- The value `tCurr_ns` computed by `SetStopPosition`: 0 when `m_pCurr` is
null (lazy init pending), else the current block's adjusted timestamp. -/
def tCurrNs (env : Env) (s : StreamState) : Int :=
  match s.m_pCurr with
  | none => 0
  | some c => env.blockTime c

/-- The value `pCurrCluster` computed by `SetStopPosition`: `m_pBase`, or
the segment's first cluster when `m_pBase` is null. -/
def currCluster (env : Env) (s : StreamState) : ClPtr :=
  match s.m_pBase with
  | some b => b
  | none => env.first

/-- The `switch (dwStopPos)` of `SetStopPosition`, computing `tStop_ns`:
`none` encodes the early return in the Incremental branch when
`stoppos_reftime <= 0` (which sets `m_pStop = m_pCurr`). -/
def tStopNs (env : Env) (s : StreamState) (stoppos_reftime : Int)
    (mode : PosMode) : Option Int :=
  let stoppos_ns := stoppos_reftime * 100
  match mode with
  | .absolute => some stoppos_reftime
  | .relative =>
      match s.m_pStop with
      | none => some (env.duration + stoppos_ns)
      | some st =>
          if st = .eos then some (env.duration + stoppos_ns)
          else some (env.blockTime st + stoppos_ns)
  | .incremental =>
      if stoppos_reftime ≤ 0 then none
      else some (tCurrNs env s + stoppos_ns)

/-- `Stream::SetStopPosition(stoppos_reftime, dwStop_)`. -/
def SetStopPosition (env : Env) (s : StreamState) (stoppos_reftime : Int)
    (mode : PosMode) : StreamState :=
  if env.count = 0 then
    { s with m_pStop := some .eos }  -- means play to end
  else if s.m_pCurr = some .eos then
    { s with m_pStop := some .eos }
  else
    match tStopNs env s stoppos_reftime mode with
    | none => { s with m_pStop := s.m_pCurr }
    | some tStop_ns =>
        if tStop_ns ≤ tCurrNs env s then
          { s with m_pStop := s.m_pCurr }
        else if env.duration ≤ tStop_ns then
          { s with m_pStop := some .eos }
        else
          let c0 := env.findCluster tStop_ns
          let pStopCluster := if c0 = currCluster env s then env.next c0 else c0
          { s with m_pStop := env.getEntry pStopCluster }

/-- `Stream::SetStopPositionEOS()`. -/
def SetStopPositionEOS (s : StreamState) : StreamState :=
  { s with m_pStop := some .eos }

/-- `Stream::SendPreroll(pSample)`: the base-class hook always declines. -/
def SendPreroll : Bool := false

/-- Result of `Stream::PopulateSample`, naming the HRESULT values the
source returns: `E_INVALIDARG`, `S_FALSE` (end of stream),
`VFW_E_BUFFER_UNDERFLOW`, `2` (sample soft-skipped), `S_OK`. -/
inductive PSResult where
  | invalidArg
  | endOfStream
  | underflow
  | skipped
  | ok
deriving DecidableEq, Repr

/-- The tail of `Stream::PopulateSample` after the stop checks (source
lines 595-627): `Track::GetNext`, the `OnPopulateSample` delivery, cursor
advancement, and the soft-skip / clear-discontinuity decision.  `curr` is
the value of `m_pCurr` at this point (so `s1.m_pCurr = some curr`). -/
def deliverStep (env : Env) (onPopulateSample : BEPtr → Int)
    (s1 : StreamState) (curr : BEPtr) : StreamState × PSResult :=
  match env.getNextBlock curr with
  | .underflow => (s1, .underflow)
  | .ok pNextBlock =>
      let hr := onPopulateSample pNextBlock
      let s2 := { s1 with m_pCurr := some pNextBlock }
      if hr = 0 then ({ s2 with m_bDiscontinuity := false }, .ok)
      else (s2, .skipped)  -- throw away this sample

/-- The stop checks of `Stream::PopulateSample` (source lines 585-593),
entered once `m_pCurr` is initialized: null `m_pStop` with `m_pCurr` at
EOS, or `m_pCurr == m_pStop`, report end of stream; otherwise deliver. -/
def stopCheck (env : Env) (onPopulateSample : BEPtr → Int)
    (s1 : StreamState) (curr : BEPtr) : StreamState × PSResult :=
  if s1.m_pStop = none then
    if curr = .eos then (s1, .endOfStream)  -- send EOS downstream
    else deliverStep env onPopulateSample s1 curr
  else if some curr = s1.m_pStop then (s1, .endOfStream)  -- EOS
  else deliverStep env onPopulateSample s1 curr

/-- `Stream::PopulateSample(pSample)`.  The sink `pSample` is `none` for a
null pointer, else the virtual `OnPopulateSample` call on the subclass,
modelled as the HRESULT (an `Int`, `0` = `S_OK`) it returns for the fetched
block.  Returns the updated state and the result code. -/
def PopulateSample (env : Env) (pSample : Option (BEPtr → Int))
    (s : StreamState) : StreamState × PSResult :=
  match pSample with
  | none => (s, .invalidArg)
  | some onPopulateSample =>
    if SendPreroll then (s, .ok)
    else
      match s.m_pCurr with
      | some c => stopCheck env onPopulateSample s c
      | none =>  -- lazy-init of first block
          match env.getFirstBlock with
          | .underflow => (s, .underflow)
          | .ok be =>
              stopCheck env onPopulateSample
                { s with m_pCurr := some be, m_pBase := some env.first } be

/-! Concrete container worlds and session states used to instantiate the
theorems below.  `env0` is a fully-loaded two-cluster segment of duration
ten seconds, one block entry per cluster; `env1` is the same segment at an
earlier loading instant, where fetching the block after the current one
still underflows. -/

/-- A fully loaded two-cluster segment, duration 10 s, cues absent. -/
def env0 : Env :=
  { duration := 10000000000
    count := 2
    unparsed := 0
    first := .cl 0
    next := fun c => match c with | .cl n => .cl (n + 1) | .eos => .eos
    findCluster := fun _ => .cl 0
    segSeek := fun _ => .entry 5
    cues := none
    entryCluster := fun be => match be with | .entry n => .cl n | .eos => .eos
    blockTime := fun be =>
      match be with | .entry n => (n : Int) * 1000000000 | .eos => 0
    getEntry := fun c =>
      match c with | .cl n => some (.entry n) | .eos => some .eos
    getFirstBlock := .ok (.entry 0)
    getNextBlock := fun be =>
      match be with | .entry n => .ok (.entry (n + 1)) | .eos => .ok .eos }

/-- Same segment, but the block after any current one is not loaded yet:
`Track::GetNext` reports `E_BUFFER_NOT_FULL`. -/
def env1 : Env :=
  { env0 with getNextBlock := fun _ => .underflow }

/-- A session positioned at block entry 1 (t = 1 s) of cluster 1, playing
to end of stream. -/
def sA : StreamState :=
  { m_pBase := some (.cl 1)
    m_pCurr := some (.entry 1)
    m_pStop := some .eos
    m_bDiscontinuity := false }

/-- A session positioned at block entry 0 (t = 0) of cluster 0, playing to
end of stream. -/
def sB : StreamState :=
  { m_pBase := some (.cl 0)
    m_pCurr := some (.entry 0)
    m_pStop := some .eos
    m_bDiscontinuity := false }

/-- A session whose `m_pCurr` and `m_pStop` are both the null pointer, as
produced by `Init()` followed by `SetStopPosition(0, Incremental)` on a
segment with loaded clusters. -/
def sN : StreamState :=
  { m_pBase := none
    m_pCurr := none
    m_pStop := none
    m_bDiscontinuity := true }

/-- A session whose cursor has reached its (non-null) stop entry. -/
def sW : StreamState :=
  { m_pBase := some (.cl 0)
    m_pCurr := some (.entry 3)
    m_pStop := some (.entry 3)
    m_bDiscontinuity := false }

/-- The state left behind by `PopulateSample` on `env1` from `Init`: the
lazy first-block initialization succeeded before the next-block fetch
underflowed. -/
def sU : StreamState :=
  { m_pBase := some (.cl 0)
    m_pCurr := some (.entry 0)
    m_pStop := some .eos
    m_bDiscontinuity := true }

/-! Theorems settling the claims. -/

/-- C10: at construction (whose body is `Init()`) and after every call to
`Init()`, the session state has `m_bDiscontinuity = true`, in addition to
`m_pCurr = null`, `m_pBase = null` and `m_pStop` = the track's EOS
sentinel; so the first sample delivered afterwards is flagged as a
discontinuity. -/
theorem init_state :
    Init.m_pCurr = none ∧ Init.m_pBase = none ∧
    Init.m_pStop = some BEPtr.eos ∧ Init.m_bDiscontinuity = true :=
  ⟨rfl, rfl, rfl, rfl⟩

/-- C9: every call to `Seek` sets `m_bDiscontinuity = true`, on every
control path: empty container (loaded or still loading), `tCurr_ns <= 0`,
`tCurr_ns >= duration`, cue hit, and structural-seek fallback. -/
theorem seek_sets_discontinuity (env : Env) (s : StreamState) (t : Int)
    (uc : Bool) : (Seek env s t uc).1.m_bDiscontinuity = true := by
  unfold Seek
  dsimp only
  split
  · split <;> rfl
  · split
    · rfl
    · split
      · rfl
      · split <;> rfl

/-- C2: when the segment has at least one loaded cluster, `Seek`
classifies boundaries: `tCurr_ns <= 0` returns the null cluster and sets
`m_pBase = m_pCurr = null` (lazy re-initialization); otherwise
`tCurr_ns >= duration` returns the segment's EOS cluster and sets
`m_pCurr` to the track's EOS sentinel. -/
theorem seek_boundary (env : Env) (s : StreamState) (t : Int) (uc : Bool)
    (hcount : ¬ env.count = 0) :
    (t ≤ 0 →
      Seek env s t uc =
        ({ s with m_bDiscontinuity := true, m_pBase := none, m_pCurr := none },
         none)) ∧
    (¬ t ≤ 0 → env.duration ≤ t →
      Seek env s t uc =
        ({ s with m_bDiscontinuity := true, m_pBase := some .eos,
                  m_pCurr := some .eos },
         some ClPtr.eos)) := by
  constructor
  · intro ht
    unfold Seek
    rw [if_neg hcount, if_pos ht]
  · intro ht hd
    unfold Seek
    rw [if_neg hcount, if_neg ht, if_pos hd]

/-- Witness for C2 at concrete inputs: a backwards seek and a past-the-end
seek on the loaded two-cluster segment. -/
theorem seek_boundary_witness :
    Seek env0 Init (-1) false =
      ({ Init with m_bDiscontinuity := true, m_pBase := none,
                   m_pCurr := none },
       none) ∧
    Seek env0 Init 20000000000 false =
      ({ Init with m_bDiscontinuity := true, m_pBase := some .eos,
                   m_pCurr := some .eos },
       some ClPtr.eos) :=
  ⟨(seek_boundary env0 Init (-1) false (by decide)).1 (by decide),
   (seek_boundary env0 Init 20000000000 false (by decide)).2 (by decide)
     (by decide)⟩

/-- C6: `SetStopPosition` in Incremental mode with a nonpositive offset,
on a segment with loaded clusters and with `m_pCurr` not at EOS, sets
`m_pStop = m_pCurr` and returns at once; with offset 0 this always yields
`stop == curr` (a zero-length stop window). -/
theorem setStop_incremental_nonpos (env : Env) (s : StreamState) (off : Int)
    (hoff : off ≤ 0) (hcount : ¬ env.count = 0)
    (hcurr : ¬ s.m_pCurr = some .eos) :
    SetStopPosition env s off .incremental =
      { s with m_pStop := s.m_pCurr } := by
  unfold SetStopPosition tStopNs
  rw [if_neg hcount, if_neg hcurr]
  dsimp only
  rw [if_pos hoff]

/-- Witness for C6: offset 0, incremental, on the loaded segment with the
cursor at block entry 1. -/
theorem setStop_incremental_nonpos_witness :
    SetStopPosition env0 sA 0 .incremental =
      { sA with m_pStop := sA.m_pCurr } :=
  setStop_incremental_nonpos env0 sA 0 (by decide) (by decide) (by decide)

/-- C4: in `SetStopPosition`'s mode switch, Absolute assigns the caller's
offset directly as the nanosecond target (no multiplication by 100),
whereas Relative and Incremental convert the reftime offset to nanoseconds
by multiplying by 100 before adding. -/
theorem tStopNs_modes (env : Env) (s : StreamState) (off : Int) :
    tStopNs env s off .absolute = some off ∧
    ((s.m_pStop = none ∨ s.m_pStop = some BEPtr.eos) →
      tStopNs env s off .relative = some (env.duration + off * 100)) ∧
    (∀ st, s.m_pStop = some st → st ≠ BEPtr.eos →
      tStopNs env s off .relative = some (env.blockTime st + off * 100)) ∧
    (0 < off →
      tStopNs env s off .incremental = some (tCurrNs env s + off * 100)) := by
  refine ⟨rfl, ?_, ?_, ?_⟩
  · rintro (h | h) <;> simp [tStopNs, h]
  · intro st h hne
    simp [tStopNs, h, hne]
  · intro h
    simp [tStopNs, not_le.mpr h]

/-- Witness for C4 at offset 7 reftime ticks on the loaded segment. -/
theorem tStopNs_modes_witness :
    tStopNs env0 Init 7 .absolute = some 7 ∧
    tStopNs env0 Init 7 .relative = some (env0.duration + 7 * 100) ∧
    tStopNs env0 Init 7 .incremental = some (tCurrNs env0 Init + 7 * 100) :=
  ⟨(tStopNs_modes env0 Init 7).1,
   (tStopNs_modes env0 Init 7).2.1 (Or.inr rfl),
   (tStopNs_modes env0 Init 7).2.2.2 (by decide)⟩

/-- C5: once the mode-specific target `tStop_ns` is computed (segment has
clusters, `m_pCurr` not at EOS, and no Incremental early return), the
clamps apply in order: `tStop_ns <= tCurr_ns` sets `m_pStop = m_pCurr` and
returns; otherwise `tStop_ns >= duration` sets `m_pStop` to the track's
EOS sentinel and returns. -/
theorem setStop_clamp (env : Env) (s : StreamState) (off : Int)
    (mode : PosMode) (tStop : Int) (hcount : ¬ env.count = 0)
    (hcurr : ¬ s.m_pCurr = some .eos)
    (ht : tStopNs env s off mode = some tStop) :
    (tStop ≤ tCurrNs env s →
      SetStopPosition env s off mode = { s with m_pStop := s.m_pCurr }) ∧
    (tCurrNs env s < tStop → env.duration ≤ tStop →
      SetStopPosition env s off mode = { s with m_pStop := some .eos }) := by
  constructor
  · intro hle
    unfold SetStopPosition
    rw [if_neg hcount, if_neg hcurr, ht]
    dsimp only
    rw [if_pos hle]
  · intro hgt hd
    unfold SetStopPosition
    rw [if_neg hcount, if_neg hcurr, ht]
    dsimp only
    rw [if_neg (not_le.mpr hgt), if_pos hd]

/-- Witness for C5: Absolute targets of 5 ns (below the cursor's 1 s) and
of 20 s (beyond the 10 s duration) on the loaded segment. -/
theorem setStop_clamp_witness :
    SetStopPosition env0 sA 5 .absolute = { sA with m_pStop := sA.m_pCurr } ∧
    SetStopPosition env0 sA 20000000000 .absolute =
      { sA with m_pStop := some .eos } :=
  ⟨(setStop_clamp env0 sA 5 .absolute 5 (by decide) (by decide) rfl).1
     (by decide),
   (setStop_clamp env0 sA 20000000000 .absolute 20000000000 (by decide)
       (by decide) rfl).2 (by decide) (by decide)⟩

/-- C3: when `SetStopPosition` reaches the cluster lookup (clusters
loaded, `m_pCurr` not at EOS, computed target strictly between the current
position and the duration) and `Segment::FindCluster` yields the cluster
the cursor currently occupies (`m_pBase`, or the first cluster when
`m_pBase` is null), the stop is resolved from the next cluster's entry for
the track instead. -/
theorem setStop_skips_current_cluster (env : Env) (s : StreamState)
    (off : Int) (mode : PosMode) (tStop : Int) (hcount : ¬ env.count = 0)
    (hcurr : ¬ s.m_pCurr = some .eos)
    (ht : tStopNs env s off mode = some tStop)
    (h1 : tCurrNs env s < tStop) (h2 : tStop < env.duration)
    (hfind : env.findCluster tStop = currCluster env s) :
    SetStopPosition env s off mode =
      { s with m_pStop := env.getEntry (env.next (currCluster env s)) } := by
  unfold SetStopPosition
  rw [if_neg hcount, if_neg hcurr, ht]
  dsimp only
  rw [if_neg (not_le.mpr h1), if_neg (not_le.mpr h2), hfind, if_pos rfl]

/-- Witness for C3: an Absolute 5 s target whose cluster lookup returns
cluster 0, the cluster the cursor occupies; the stop resolves from cluster
1, the next one. -/
theorem setStop_skips_current_cluster_witness :
    SetStopPosition env0 sB 5000000000 .absolute =
      { sB with m_pStop := env0.getEntry (env0.next (currCluster env0 sB)) } :=
  setStop_skips_current_cluster env0 sB 5000000000 .absolute 5000000000
    (by decide) (by decide) rfl (by decide) (by decide) rfl

/-! Helper lemmas about `PopulateSample`'s control flow, shared by the
claims about the pull loop. -/

theorem populate_some_curr (env : Env) (p : BEPtr → Int) (s : StreamState)
    (c : BEPtr) (hc : s.m_pCurr = some c) :
    PopulateSample env (some p) s = stopCheck env p s c := by
  simp only [PopulateSample]
  rw [if_neg (by decide : ¬ (SendPreroll = true)), hc]

theorem populate_none_underflow (env : Env) (p : BEPtr → Int)
    (s : StreamState) (hc : s.m_pCurr = none)
    (hf : env.getFirstBlock = Fetch.underflow) :
    PopulateSample env (some p) s = (s, PSResult.underflow) := by
  simp only [PopulateSample]
  rw [if_neg (by decide : ¬ (SendPreroll = true)), hc, hf]

theorem populate_none_ok (env : Env) (p : BEPtr → Int) (s : StreamState)
    (be : BEPtr) (hc : s.m_pCurr = none)
    (hf : env.getFirstBlock = Fetch.ok be) :
    PopulateSample env (some p) s =
      stopCheck env p
        { s with m_pCurr := some be, m_pBase := some env.first } be := by
  simp only [PopulateSample]
  rw [if_neg (by decide : ¬ (SendPreroll = true)), hc, hf]

theorem stopCheck_spec (env : Env) (p : BEPtr → Int) (s1 : StreamState)
    (c : BEPtr) :
    stopCheck env p s1 c = (s1, PSResult.endOfStream) ∨
    stopCheck env p s1 c = (s1, PSResult.underflow) ∨
    ∃ nb, env.getNextBlock c = Fetch.ok nb ∧
      (stopCheck env p s1 c =
        ({ s1 with m_pCurr := some nb, m_bDiscontinuity := false },
         PSResult.ok) ∨
       stopCheck env p s1 c =
        ({ s1 with m_pCurr := some nb }, PSResult.skipped)) := by
  have hdel : deliverStep env p s1 c = (s1, PSResult.underflow) ∨
      ∃ nb, env.getNextBlock c = Fetch.ok nb ∧
        (deliverStep env p s1 c =
          ({ s1 with m_pCurr := some nb, m_bDiscontinuity := false },
           PSResult.ok) ∨
         deliverStep env p s1 c =
          ({ s1 with m_pCurr := some nb }, PSResult.skipped)) := by
    unfold deliverStep
    rcases h : env.getNextBlock c with _ | nb
    · exact Or.inl rfl
    · refine Or.inr ⟨nb, rfl, ?_⟩
      dsimp only
      by_cases hp : p nb = 0
      · rw [if_pos hp]
        exact Or.inl rfl
      · rw [if_neg hp]
        exact Or.inr rfl
  unfold stopCheck
  split
  · split
    · exact Or.inl rfl
    · rcases hdel with h | h
      · exact Or.inr (Or.inl h)
      · exact Or.inr (Or.inr h)
  · split
    · exact Or.inl rfl
    · rcases hdel with h | h
      · exact Or.inr (Or.inl h)
      · exact Or.inr (Or.inr h)

theorem stopCheck_disc (env : Env) (p : BEPtr → Int) (s1 : StreamState)
    (c : BEPtr) (hd : s1.m_bDiscontinuity = true)
    (hdisc : (stopCheck env p s1 c).1.m_bDiscontinuity = false) :
    (stopCheck env p s1 c).2 = PSResult.ok := by
  rcases stopCheck_spec env p s1 c with h | h | ⟨nb, hnb, h | h⟩
  · rw [h] at hdisc
    have h2 : s1.m_bDiscontinuity = false := hdisc
    rw [hd] at h2
    exact absurd h2 (by decide)
  · rw [h] at hdisc
    have h2 : s1.m_bDiscontinuity = false := hdisc
    rw [hd] at h2
    exact absurd h2 (by decide)
  · rw [h]
  · rw [h] at hdisc
    have h2 : s1.m_bDiscontinuity = false := hdisc
    rw [hd] at h2
    exact absurd h2 (by decide)

/-- C1 counterexample: in the reachable session state with
`m_pCurr = m_pStop = null` (produced by `Init()` then
`SetStopPosition(0, Incremental)`), `PopulateSample` with a non-null sink
does not report end of stream: it lazily initializes, delivers a block and
advances the cursor. -/
theorem populate_at_stop_counterexample :
    sN.m_pCurr = sN.m_pStop ∧
    ¬ (PopulateSample env0 (some (fun _ => 0)) sN).2 =
        PSResult.endOfStream ∧
    ¬ (PopulateSample env0 (some (fun _ => 0)) sN).1.m_pCurr =
        sN.m_pCurr := by
  decide

/-- C1 (amended to non-null cursors): in every session state in which
`m_pCurr` and `m_pStop` are equal and non-null, `PopulateSample` with a
non-null sink (the base `SendPreroll` declining) returns `S_FALSE` (end of
stream) and leaves the whole state unchanged; hence the block at the stop
position is never delivered and repeated calls return end of stream every
time. -/
theorem populate_at_stop (env : Env) (sink : BEPtr → Int) (s : StreamState)
    (b : BEPtr) (hcurr : s.m_pCurr = some b) (hstop : s.m_pStop = some b) :
    PopulateSample env (some sink) s = (s, PSResult.endOfStream) := by
  rw [populate_some_curr env sink s b hcurr]
  unfold stopCheck
  rw [hstop]
  rw [if_neg (Option.some_ne_none b), if_pos rfl]

/-- Witness for C1 (amended): the cursor of `sW` sits at its stop entry;
the call reports end of stream and changes nothing. -/
theorem populate_at_stop_witness :
    PopulateSample env0 (some (fun _ => 0)) sW =
      (sW, PSResult.endOfStream) :=
  populate_at_stop env0 (fun _ => 0) sW (.entry 3) rfl rfl

/-- C7 counterexample: starting from `Init()` (cursor uninitialized) on a
segment whose first block is loaded but whose next block is not,
`PopulateSample` returns `VFW_E_BUFFER_UNDERFLOW` yet `m_pCurr` is no
longer the null pointer it was before the call: the successful lazy
first-block initialization persists. -/
theorem populate_underflow_counterexample :
    (PopulateSample env1 (some (fun _ => 0)) Init).2 =
      PSResult.underflow ∧
    ¬ (PopulateSample env1 (some (fun _ => 0)) Init).1.m_pCurr =
        Init.m_pCurr := by
  decide

/-- C7 (amended): whenever `PopulateSample` returns
`VFW_E_BUFFER_UNDERFLOW`, `m_pStop` and `m_bDiscontinuity` are unchanged,
and the rest of the state is either fully unchanged (in particular
whenever `m_pCurr` was initialized, and when the first-block fetch itself
underflowed) or — only when the call began with `m_pCurr` null and the
lazy first-block fetch succeeded before the next-block fetch underflowed —
`m_pCurr`/`m_pBase` hold that first block and the segment's first cluster;
an identical retry resumes from the state left behind. -/
theorem populate_underflow_state (env : Env) (sink : BEPtr → Int)
    (s s' : StreamState)
    (h : PopulateSample env (some sink) s = (s', PSResult.underflow)) :
    s'.m_pStop = s.m_pStop ∧ s'.m_bDiscontinuity = s.m_bDiscontinuity ∧
    (s' = s ∨ (s.m_pCurr = none ∧ ∃ be, env.getFirstBlock = Fetch.ok be ∧
      s' = { s with m_pCurr := some be, m_pBase := some env.first })) := by
  rcases hc : s.m_pCurr with _ | c
  · rcases hf : env.getFirstBlock with _ | be
    · rw [populate_none_underflow env sink s hc hf] at h
      injection h with h1 h2
      subst h1
      exact ⟨rfl, rfl, Or.inl rfl⟩
    · rw [populate_none_ok env sink s be hc hf] at h
      rcases stopCheck_spec env sink
          { s with m_pCurr := some be, m_pBase := some env.first } be with
        hsc | hsc | ⟨nb, hnb, hsc | hsc⟩ <;>
        rw [hsc] at h <;> injection h with h1 h2
      · exact absurd h2 (by decide)
      · subst h1
        exact ⟨rfl, rfl, Or.inr ⟨rfl, be, rfl, rfl⟩⟩
      · exact absurd h2 (by decide)
      · exact absurd h2 (by decide)
  · rw [populate_some_curr env sink s c hc] at h
    rcases stopCheck_spec env sink s c with hsc | hsc | ⟨nb, hnb, hsc | hsc⟩ <;>
      rw [hsc] at h <;> injection h with h1 h2
    · exact absurd h2 (by decide)
    · subst h1
      exact ⟨rfl, rfl, Or.inl rfl⟩
    · exact absurd h2 (by decide)
    · exact absurd h2 (by decide)

/-- Witness for C7 (amended) at the concrete underflowing segment `env1`
from `Init()`: the lazily initialized state `sU` is the second disjunct. -/
theorem populate_underflow_state_witness :
    sU.m_pStop = Init.m_pStop ∧
    sU.m_bDiscontinuity = Init.m_bDiscontinuity ∧
    (sU = Init ∨ (Init.m_pCurr = none ∧
      ∃ be, env1.getFirstBlock = Fetch.ok be ∧
        sU = { Init with m_pCurr := some be, m_pBase := some env1.first })) :=
  populate_underflow_state env1 (fun _ => 0) Init sU (by decide)

/-- C8: (1) when the sink rejects a successfully fetched block
(`OnPopulateSample` returns a success code other than `S_OK`),
`PopulateSample` still advances `m_pCurr` to that block, returns the
distinct soft-skip status `2` instead of `S_OK`, and leaves
`m_bDiscontinuity` as it was; (2) the discontinuity flag is cleared only
on a fully successful delivery (result `S_OK`). -/
theorem populate_soft_skip :
    (∀ (env : Env) (sink : BEPtr → Int) (s : StreamState) (c nb : BEPtr),
      s.m_pCurr = some c →
      ((s.m_pStop = none ∧ ¬ c = BEPtr.eos) ∨
        (¬ s.m_pStop = none ∧ ¬ some c = s.m_pStop)) →
      env.getNextBlock c = Fetch.ok nb →
      0 ≤ sink nb → ¬ sink nb = 0 →
      PopulateSample env (some sink) s =
        ({ s with m_pCurr := some nb }, PSResult.skipped)) ∧
    (∀ (env : Env) (pSample : Option (BEPtr → Int)) (s : StreamState),
      s.m_bDiscontinuity = true →
      (PopulateSample env pSample s).1.m_bDiscontinuity = false →
      (PopulateSample env pSample s).2 = PSResult.ok) := by
  constructor
  · intro env sink s c nb hcurr hreach hnext hge hne0
    rw [populate_some_curr env sink s c hcurr]
    unfold stopCheck deliverStep
    rcases hreach with ⟨h1, h2⟩ | ⟨h1, h2⟩
    · rw [if_pos h1, if_neg h2, hnext]
      dsimp only
      rw [if_neg hne0]
    · rw [if_neg h1, if_neg h2, hnext]
      dsimp only
      rw [if_neg hne0]
  · intro env pSample s hd hdisc
    rcases pSample with _ | p
    · have h2 : s.m_bDiscontinuity = false := hdisc
      rw [hd] at h2
      exact absurd h2 (by decide)
    · rcases hc : s.m_pCurr with _ | c
      · rcases hf : env.getFirstBlock with _ | be
        · rw [populate_none_underflow env p s hc hf] at hdisc ⊢
          have h2 : s.m_bDiscontinuity = false := hdisc
          rw [hd] at h2
          exact absurd h2 (by decide)
        · rw [populate_none_ok env p s be hc hf] at hdisc ⊢
          exact stopCheck_disc env p _ be hd hdisc
      · rw [populate_some_curr env p s c hc] at hdisc ⊢
        exact stopCheck_disc env p s c hd hdisc

/-- Witness for C8: on the loaded segment with the cursor at block 0 and a
sink answering `S_FALSE` (1), the call soft-skips: the cursor advances to
block 1, the status is the skip code, and the discontinuity flag is
untouched. -/
theorem populate_soft_skip_witness :
    PopulateSample env0 (some (fun _ => 1)) sB =
      ({ sB with m_pCurr := some (.entry 1) }, PSResult.skipped) :=
  populate_soft_skip.1 env0 (fun _ => 1) sB (.entry 0) (.entry 1) rfl
    (Or.inr ⟨by decide, by decide⟩) rfl (by decide) (by decide)

end MkvStream
